import Mathlib

/-!
# Verification of `jenkins/bootstrap.py`

A shallow embedding of the pure/plan-producing parts of the CI bootstrapper:

* the Reference Resolver (`pull_numbers`, `pull_ref`, `branch_ref`),
* the Checkout Orchestrator's fetch-retry loop and merge sequence,
* the Result Ledger's `append_result` read-modify-write loop (modelled as a
  trace over an oracle describing the remote store's responses),
* the path schemes (`ci_paths`, `pr_paths`) over a `Repos` model,
* the Build Orchestrator's publish sequence (`start`/`finish`), modelled as
  the ordered list of store operations it issues,
* the Process Supervisor's exit-code and failure-policy logic from `_call`.

Effectful calls (subprocess, gsutil, `time.sleep`) are modelled as events in
traces; the wall-clock retry budget of `append_result` is modelled by the
length of the oracle's response list (one response per loop iteration, an
empty list meaning the 5-minute budget is exhausted).
-/

namespace Bootstrap

/-! ## Python primitives

String operations are implemented structurally over `List Char` (the
`data` of a `String`) so that every definition is kernel-computable; each
mirrors the Python builtin named in its doc comment. -/

/-- `String` from its character list. -/
def ofChars (l : List Char) : String := ⟨l⟩

/-- Python `c in s` for a single character. -/
def pyContains (s : String) (c : Char) : Bool :=
  s.data.contains c

/-- Whether `p` is a prefix of `l` (Python `startswith`). -/
def startsWithChars : List Char → List Char → Bool
  | [], _ => true
  | _ :: _, [] => false
  | p :: ps, x :: xs => p = x && startsWithChars ps xs

/-- Python `s.startswith(p)`. -/
def pyStartsWith (s p : String) : Bool :=
  startsWithChars p.data s.data

/-- Python `s.endswith(c)` for a single character. -/
def pyEndsWithChar (s : String) (c : Char) : Bool :=
  s.data.getLast? = some c

/-- Python `s.split(sep)` for a one-character separator, accumulator pass. -/
def splitOnCharAux (c : Char) : List Char → List Char → List (List Char)
  | [], acc => [acc.reverse]
  | x :: xs, acc =>
    if x = c then acc.reverse :: splitOnCharAux c xs []
    else splitOnCharAux c xs (x :: acc)

/-- Python `s.split(sep)` for a one-character separator. -/
def pySplit (s : String) (c : Char) : List String :=
  (splitOnCharAux c s.data []).map ofChars

/-- Python `s[n:]`. -/
def pyDrop (s : String) (n : Nat) : String :=
  ofChars (s.data.drop n)

/-- Python `s.replace(a, b)` for one-character `a`, `b`. -/
def pyReplaceChar (s : String) (a b : Char) : String :=
  ofChars (s.data.map fun c => if c = a then b else c)

/-- Decimal digits to a number, `none` on a non-digit (Python `int(s)`'s
digit scan). -/
def digitsToNatAux : List Char → Nat → Option Nat
  | [], acc => some acc
  | c :: cs, acc =>
    if '0' ≤ c ∧ c ≤ '9' then digitsToNatAux cs (acc * 10 + (c.toNat - '0'.toNat))
    else none

/-- Python `int(s)` restricted to an optional sign followed by decimal
digits (whitespace and underscore forms are never produced by the
callers). `none` models the raised `ValueError`. -/
def pyToInt (s : String) : Option Int :=
  match s.data with
  | [] => none
  | '-' :: cs =>
    if cs.isEmpty then none else (digitsToNatAux cs 0).map fun n => -(n : Int)
  | '+' :: cs =>
    if cs.isEmpty then none else (digitsToNatAux cs 0).map fun n => (n : Int)
  | cs => (digitsToNatAux cs 0).map fun n => (n : Int)

/-- Decimal rendering of a `Nat`, fuelled (fuel `n + 1` always suffices). -/
def natToCharsAux : Nat → Nat → List Char → List Char
  | 0, _, acc => acc
  | fuel + 1, n, acc =>
    if n < 10 then Char.ofNat ('0'.toNat + n) :: acc
    else natToCharsAux fuel (n / 10) (Char.ofNat ('0'.toNat + n % 10) :: acc)

/-- Python `str(n)` / `'%d' % n` for a natural number. -/
def natToStr (n : Nat) : String :=
  ofChars (natToCharsAux (n + 1) n [])

/-- Python `str(n)` / `'%d' % n` for an integer. -/
def intToStr (n : Int) : String :=
  if n < 0 then "-" ++ natToStr n.natAbs else natToStr n.natAbs

/-- Python `'\n'.join(l)`. -/
def joinChars (sep : List Char) : List (List Char) → List Char
  | [] => []
  | [x] => x
  | x :: y :: xs => x ++ sep ++ joinChars sep (y :: xs)

/-- Python `'\n'.join(l)` over strings. -/
def pyJoinNl (l : List String) : String :=
  ofChars (joinChars ['\n'] (l.map String.data))

/-- Association-list lookup with first binding winning (Python dict access;
keys are unique in a dict). -/
def alookup {α : Type} : List (String × α) → String → Option α
  | [], _ => none
  | (k, v) :: rest, key => if k = key then some v else alookup rest key

/-- Python `posixpath.join` restricted to two components: if the second
component is absolute it wins; an empty or slash-terminated first component
is concatenated directly; otherwise a `/` separator is inserted. -/
def pjoin (a b : String) : String :=
  if pyStartsWith b "/" then b
  else if a = "" ∨ pyEndsWithChar a '/' then a ++ b
  else a ++ "/" ++ b

/-- Python `l[-n:]`: the last `n` elements of `l` (all of `l` when shorter). -/
def pyLastN (n : Nat) (l : List α) : List α :=
  l.drop (l.length - n)

/-! ## Reference Resolver

`bootstrap.py` passes `pull` around either as an `int` or as a `str`
(`isinstance(pull, int)` in `pull_ref`); `PullArg` models that union. -/

inductive PullArg
  | int (n : Int)
  | str (s : String)
deriving DecidableEq, Repr

/-- `ref_has_shas(ref)`: true iff `ref` is a string containing `':'`. -/
def ref_has_shas : PullArg → Bool
  | .int _ => false
  | .str s => pyContains s ':'

/-- `str(pull)` as used by `pull_numbers` / `pr_paths`. -/
def pyStr : PullArg → String
  | .int n => intToStr n
  | .str s => s

/-- `pull_numbers(pull)`: with explicit shas, the identifiers before each
colon minus the leading base branch; otherwise the field itself. -/
def pull_numbers (pull : PullArg) : List String :=
  if ref_has_shas pull then
    ((pySplit (pyStr pull) ',').map (fun r => (pySplit r ':').headD "")).drop 1
  else
    [pyStr pull]

/-- One iteration of the `for ref in pulls` loop of `pull_ref`, threading the
accumulated `refs` and `checkouts` lists.  `none` models the `ValueError` /
unpacking error Python raises on a malformed entry. -/
def pull_ref_step (ref : String) (refs checkouts : List String) :
    Option (List String × List String) := do
  let (name, sha) ←
    if pyContains ref ':' then  -- master:abcd or 1234:abcd
      match pySplit ref ':' with
      | [name, sha] => some (name, sha)
      | _ => none
    else if refs.isEmpty then  -- master
      some (ref, "FETCH_HEAD")
    else
      some (ref, "refs/pr/" ++ ref)
  let checkouts := checkouts ++ [sha]
  if refs.isEmpty then  -- First ref should be branch to merge into
    some (refs ++ [name], checkouts)
  else do  -- Subsequent refs should be PR numbers
    let num ← pyToInt name
    some (refs ++ ["+refs/pull/" ++ intToStr num ++ "/head:refs/pr/" ++ intToStr num],
          checkouts)

/-- The `for` loop of `pull_ref` over the comma-separated entries. -/
def pull_ref_loop : List String → List String → List String →
    Option (List String × List String)
  | [], refs, checkouts => some (refs, checkouts)
  | ref :: rest, refs, checkouts => do
    let (refs, checkouts) ← pull_ref_step ref refs checkouts
    pull_ref_loop rest refs checkouts

/-- `pull_ref(pull)`: refs to fetch and the matching checkout targets.
`none` models a raised `ValueError` (non-numeric pull number). -/
def pull_ref (pull : PullArg) : Option (List String × List String) :=
  match pull with
  | .int n => some (["+refs/pull/" ++ intToStr n ++ "/merge"], ["FETCH_HEAD"])
  | .str s =>
    if ¬ pyContains s ',' then
      (pyToInt s).map fun n => (["+refs/pull/" ++ intToStr n ++ "/merge"], ["FETCH_HEAD"])
    else
      pull_ref_loop (pySplit s ',') [] []

/-- `branch_ref(branch)`: split `branch:sha` if necessary (`split_refs[0]`
and `split_refs[1]` of the colon split). -/
def branch_ref (branch : String) : List String × List String :=
  if pyContains branch ':' then
    ((pySplit branch ':').take 1, ((pySplit branch ':').drop 1).take 1)
  else
    ([branch], ["FETCH_HEAD"])

/-! ## Process Supervisor (`_call`)

Only the exit-code post-processing and the failure policy are modelled; the
stream-draining loop is I/O.  `random_sleep(attempt)` sleeps
`random() + attempt ** 2` seconds; the fractional `random()` draw is an
arbitrary rational handed in by the caller of the model. -/

/-- Duration slept by `random_sleep(attempt)`: `random() + attempt ** 2`,
with `r` the value returned by `random.random()`. -/
def random_sleep_duration (r : ℚ) (attempt : Nat) : ℚ :=
  r + (attempt : ℚ) ^ 2

/-- `code = code or 124` applied when the supervised command was killed on
timeout (`code` absent or falsy becomes the sentinel 124). -/
def timeout_code (timedOut : Bool) (code : Option Int) : Option Int :=
  if timedOut then
    match code with
    | none => some 124
    | some c => if c = 0 then some 124 else some c
  else code

/-- The `CalledProcessError` raised by `_call`: exit status, argument
vector, and captured output (`None` when output was not captured). -/
structure CalledProcessError where
  returncode : Int
  cmd : List String
  output : Option String
deriving DecidableEq, Repr

/-- The tail of `_call`: `out.append('')`, `lines = output and
'\n'.join(out)`, raise on `check and code`, otherwise `return lines`.
`outputFlag` is the `output=` keyword; `out` the captured stdout lines. -/
def call_result (check : Bool) (code : Int) (cmd : List String)
    (outputFlag : Bool) (out : List String) :
    Except CalledProcessError (Option String) :=
  let lines : Option String :=
    if outputFlag then some (pyJoinNl (out ++ [""])) else none
  if check ∧ code ≠ 0 then
    .error ⟨code, cmd, lines⟩
  else
    .ok lines

/-! ## Checkout Orchestrator (`checkout`)

The fetch-retry loop and the subsequent checkout/merge sequence, as the
trace of actions it performs.  A fetch outcome is supplied per attempt by
an oracle; `some c` in the result position models the re-raised
`CalledProcessError` with exit status `c`. -/

inductive FetchOutcome
  | ok
  | err (code : Int)
deriving DecidableEq, Repr

inductive CheckoutEv
  | fetchEv
  | sleepEv (seconds : ℚ)
  | checkoutEv (target : String)
  | mergeEv (ref : String) (head : String)
deriving DecidableEq, Repr

/-- The `for attempt in range(retries)` loop around `git fetch`.  `fuel` is
the number of remaining iterations (`retries - attempt`); a failure is
re-raised unless the attempt is not the last one and the exit status is
128, in which case `random_sleep(attempt)` runs and the next attempt
starts. -/
def fetch_loop (outcomes : Nat → FetchOutcome) (rand : Nat → ℚ)
    (retries : Nat) : Nat → Nat → List CheckoutEv × Option Int
  | 0, _ => ([], none)
  | fuel + 1, attempt =>
    match outcomes attempt with
    | .ok => ([.fetchEv], none)
    | .err c =>
      if attempt + 1 ≥ retries then ([.fetchEv], some c)
      else if c ≠ 128 then ([.fetchEv], some c)
      else
        let (evs, res) := fetch_loop outcomes rand retries fuel (attempt + 1)
        (.fetchEv :: .sleepEv (random_sleep_duration (rand attempt) attempt) :: evs, res)

/-- The merge commands issued after checkout: one `git merge --no-ff -m
"Merge <ref>" <head>` per trailing `(ref, head)` pair of
`zip(refs, checkouts)[1:]`, in input order. -/
def merge_seq (refs checkouts : List String) : List CheckoutEv :=
  ((refs.zip checkouts).drop 1).map fun rh => .mergeEv rh.1 rh.2

/-- `checkout`'s fetch/checkout/merge tail (after `git init`/`config`):
retry the fetch up to 3 attempts, then `git checkout -B test checkouts[0]`
and the merge sequence; on a re-raised fetch error the trace stops at the
failing fetch. -/
def checkout_events (outcomes : Nat → FetchOutcome) (rand : Nat → ℚ)
    (refs checkouts : List String) : List CheckoutEv × Option Int :=
  match fetch_loop outcomes rand 3 3 0 with
  | (evs, some c) => (evs, some c)
  | (evs, none) =>
    (evs ++ [.checkoutEv (checkouts.headD "")] ++ merge_seq refs checkouts, none)

/-! ## Result Ledger (`append_result`)

The read-modify-write loop over the remote JSON history.  Each loop
iteration consults the store; the oracle supplies one `StoreStep` per
iteration (the `stat` probe's outcome, the `cat`/decode outcome, and
whether the conditional write is accepted).  An exhausted oracle models
the `while time.time() < end` guard failing: the function returns
normally.  `rand` is indexed by the current error count, which strictly
increases between sleeps. -/

structure ResultRec where
  version : String
  buildnumber : String
  passed : Bool
deriving DecidableEq, Repr

/-- Outcome of `gsutil.stat` + the `Generation:` regex: a parsed generation
token (a nonempty digit string, hence always truthy in `if gen:`), or a
`CalledProcessError` making `gen = 0`. -/
inductive StatRes
  | found (gen : Nat)
  | procErr
deriving DecidableEq, Repr

/-- Outcome of `gsutil.cat` + `json.loads`: a decoded list, a decoded
non-list (raised and caught as `ValueError`), a decode failure
(`ValueError`), or a `CalledProcessError` (the generation vanished). -/
inductive CatRes
  | ok (l : List ResultRec)
  | notList
  | decodeErr
  | procErr
deriving DecidableEq, Repr

structure StoreStep where
  stat : StatRes
  cat : CatRes
  writeOk : Bool
deriving DecidableEq, Repr

inductive LedgerEv
  | sleepEv (seconds : ℚ)
  | statEv
  | catEv (gen : Nat)
  | writeEv (cache : List ResultRec) (gen : Nat)
  | returnEv
  | budgetExhaustedEv
deriving DecidableEq, Repr

/-- The history written back: `cache.append(record); cache = cache[-300:]`. -/
def ledger_write_cache (cache : List ResultRec) (rec : ResultRec) : List ResultRec :=
  pyLastN 300 (cache ++ [rec])

/-- The `while time.time() < end` loop of `append_result`.  One oracle step
is consumed per iteration; `errors` is the error counter.  The sleep at the
top of an iteration (`if errors: random_sleep(min(errors, 3))`) lasts
`random() + min(errors, 3) ** 2` seconds. -/
def append_result_loop (rand : Nat → ℚ) (rec : ResultRec) :
    List StoreStep → Nat → List LedgerEv
  | [], _ => [.budgetExhaustedEv]
  | step :: rest, errors =>
    let pre : List LedgerEv :=
      if errors ≠ 0 then [.sleepEv (random_sleep_duration (rand errors) (min errors 3))]
      else []
    match step.stat with
    | .procErr =>
      -- `gen = 0`, so `if gen:` is false and `cache = []`
      let newCache := ledger_write_cache [] rec
      if step.writeOk then
        pre ++ [.statEv, .writeEv newCache 0, .returnEv]
      else
        pre ++ [.statEv, .writeEv newCache 0]
          ++ append_result_loop rand rec rest (errors + 1)
    | .found gen =>
      -- `gen` is a nonempty digit string, always truthy: read the document
      match step.cat with
      | .procErr =>  -- gen doesn't exist: errors += 1; continue
        pre ++ [.statEv, .catEv gen]
          ++ append_result_loop rand rec rest (errors + 1)
      | .ok l =>
        let newCache := ledger_write_cache l rec
        if step.writeOk then
          pre ++ [.statEv, .catEv gen, .writeEv newCache gen, .returnEv]
        else
          pre ++ [.statEv, .catEv gen, .writeEv newCache gen]
            ++ append_result_loop rand rec rest (errors + 1)
      | .notList | .decodeErr =>  -- ValueError: cache = []
        let newCache := ledger_write_cache [] rec
        if step.writeOk then
          pre ++ [.statEv, .catEv gen, .writeEv newCache gen, .returnEv]
        else
          pre ++ [.statEv, .catEv gen, .writeEv newCache gen]
            ++ append_result_loop rand rec rest (errors + 1)

/-- `append_result` entered with `errors = 0`. -/
def append_result (rand : Nat → ℚ) (rec : ResultRec) (steps : List StoreStep) :
    List LedgerEv :=
  append_result_loop rand rec steps 0

/-! ## Paths and `Repos` -/

/-- The `Paths` bundle of remote locations.  Fields that `ci_paths` sets to
`None` are `Option`s. -/
structure Paths where
  artifacts : String
  build_log : String
  pr_path : Option String
  finished : String
  latest : String
  pr_build_link : Option String
  pr_latest : Option String
  pr_result_cache : Option String
  result_cache : String
  started : String
deriving DecidableEq, Repr

/-- `Repos`: insertion-ordered `{repo: (branch, pull)}` with `.main` the
first-inserted key.  Modelled as the association list in insertion order
(keys distinct, as in a Python dict). -/
structure Repos where
  entries : List (String × (String × String))
deriving DecidableEq, Repr

/-- `repos.main`: the first-inserted repository (empty string when the dict
is empty, matching the class attribute default `main = ''`). -/
def Repos.main (r : Repos) : String :=
  (r.entries.headD ("", ("", ""))).1

/-- `repos[k]` (first binding wins, as dict keys are unique). -/
def Repos.get (r : Repos) (k : String) : String × String :=
  (alookup r.entries k).getD ("", "")

/-- `ci_paths(base, job, build)`. -/
def ci_paths (base job build : String) : Paths :=
  { artifacts := pjoin (pjoin (pjoin base job) build) "artifacts"
    build_log := pjoin (pjoin (pjoin base job) build) "build-log.txt"
    pr_path := none
    finished := pjoin (pjoin (pjoin base job) build) "finished.json"
    latest := pjoin (pjoin base job) "latest-build.txt"
    pr_build_link := none
    pr_latest := none
    pr_result_cache := none
    result_cache := pjoin (pjoin base job) "jobResultsCache.json"
    started := pjoin (pjoin (pjoin base job) build) "started.json" }

/-- The repo-dependent directory prefix computed by `pr_paths`. -/
def pr_pfx (repo : String) : String :=
  if repo = "k8s.io/kubernetes" ∨ repo = "kubernetes/kubernetes" then ""
  else if pyStartsWith repo "k8s.io/" then pyDrop repo 7
  else if pyStartsWith repo "kubernetes/" then pyDrop repo 11
  else if pyStartsWith repo "github.com/" then pyReplaceChar (pyDrop repo 11) '/' '_'
  else pyReplaceChar repo '/' '_'

/-- The `Paths` record built by `pr_paths` once the PR directory component
`pull` (either `<pfx>/<number>` or `<pfx>/batch`) is fixed. -/
def pr_paths_with (base pull job build : String) : Paths :=
  let pr_path := pjoin (pjoin (pjoin (pjoin base "pull") pull) job) build
  { artifacts := pjoin pr_path "artifacts"
    build_log := pjoin pr_path "build-log.txt"
    pr_path := some pr_path
    finished := pjoin pr_path "finished.json"
    latest := pjoin (pjoin (pjoin base "directory") job) "latest-build.txt"
    pr_build_link := some (pjoin (pjoin (pjoin base "directory") job) (build ++ ".txt"))
    pr_latest := some (pjoin (pjoin (pjoin base "pull") (pjoin pull job)) "latest-build.txt")
    pr_result_cache := some (pjoin (pjoin (pjoin base "pull") (pjoin pull job)) "jobResultsCache.json")
    result_cache := pjoin (pjoin (pjoin base "directory") job) "jobResultsCache.json"
    started := pjoin pr_path "started.json" }

/-- `pr_paths(base, repos, job, build)`.  `Except` models the `ValueError`
raised on an empty repo set. -/
def pr_paths (base : String) (repos : Repos) (job build : String) :
    Except String Paths :=
  if repos.entries.isEmpty then .error "repos is empty"
  else
    let repo := repos.main
    let pull0 := (repos.get repo).2
    let pfx := pr_pfx repo
    let pr_nums := pull_numbers (.str pull0)
    -- Batch merges are those with more than one PR specified.
    if pr_nums.length > 1 then
      .ok (pr_paths_with base (pjoin pfx "batch") job build)
    else
      match pr_nums with
      | [] => .error "IndexError"  -- pr_nums[0] on an empty list
      | n :: _ => .ok (pr_paths_with base (pjoin pfx n) job build)

/-! ## Build Orchestrator publish sequence (`start`, `finish`, `bootstrap`)

The ordered list of store operations issued on the happy path of an
uploading run.  `metadata`'s `git rev-parse` calls are not store
operations and are omitted; an `appendResultEv` stands for one whole
`append_result` invocation (whose internals are modelled above). -/

inductive PubEv
  | uploadArtifactsEv (path : String)
  | appendResultEv (path : String)
  | uploadJsonEv (path : String)
  | uploadTextEv (path : String)
  | copyFileEv (dest : String)
  | runJobEv
deriving DecidableEq, Repr

/-- `start(gsutil, paths, ...)`: upload `started.json`, then the PR build
link when present. -/
def start_events (paths : Paths) : List PubEv :=
  [.uploadJsonEv paths.started]
    ++ (match paths.pr_build_link with
        | some p => [.uploadTextEv p]
        | none => [])

/-- The latest-build pointers written by `finish`'s final loop
`for path in {paths.latest, paths.pr_latest}: if path: ...`.  The Python
set collapses a duplicate and drops a `None`/empty entry; iteration order
between two distinct members is unspecified, fixed here as
`latest` first. -/
def latest_targets (paths : Paths) : List String :=
  (if paths.latest = "" then [] else [paths.latest])
    ++ (match paths.pr_latest with
        | some p => if p = paths.latest ∨ p = "" then [] else [p]
        | none => [])

/-- `finish(gsutil, paths, ...)`: artifacts (when the local dir has files),
the ledger appends (job-global, then PR-scoped when present), then
`finished.json`, then the latest-build pointers. -/
def finish_events (paths : Paths) (hasArtifactFiles : Bool) : List PubEv :=
  (if hasArtifactFiles then [.uploadArtifactsEv paths.artifacts] else [])
    ++ [.appendResultEv paths.result_cache]
    ++ (match paths.pr_result_cache with
        | some p => [.appendResultEv p]
        | none => [])
    ++ [.uploadJsonEv paths.finished]
    ++ (latest_targets paths).map .uploadTextEv

/-- The store operations of an uploading `bootstrap` run that reaches the
job script: `start`, the job invocation, `finish`, and the final
build-log copy. -/
def bootstrap_events (paths : Paths) (hasArtifactFiles : Bool) : List PubEv :=
  start_events paths ++ [.runJobEv]
    ++ finish_events paths hasArtifactFiles
    ++ [.copyFileEv paths.build_log]

/-- A bare (no-repo) CI run: `repos` is empty, so `ci_paths` is selected
and the `_artifacts` directory of a bare job is empty. -/
def bare_ci_events (base job build : String) : List PubEv :=
  bootstrap_events (ci_paths base job build) false

/-- The store-publish events the end-to-end claim talks about (ledger
appends and object uploads; the job invocation and the trailing build-log
copy are not publishes of the four named objects). -/
def is_publish : PubEv → Bool
  | .appendResultEv _ => true
  | .uploadJsonEv _ => true
  | .uploadTextEv _ => true
  | _ => false

/-! ## Theorems -/

/-- Appending a nonempty string never yields the empty string. -/
lemma append_ne_empty_right (a b : String) (hb : b ≠ "") : a ++ b ≠ "" := by
  intro h
  apply hb
  apply String.ext
  have hd := congrArg String.data h
  simp only [String.data_append] at hd
  exact (List.append_eq_nil.mp hd).2

/-- `pjoin` of a nonempty second component is nonempty. -/
lemma pjoin_ne_empty (a b : String) (hb : b ≠ "") : pjoin a b ≠ "" := by
  unfold pjoin
  split
  · exact hb
  · split
    · exact append_ne_empty_right a b hb
    · exact append_ne_empty_right (a ++ "/") b hb

/-- C9: For every reference string containing exactly one comma-free pull
number `N` (or an integer `N`), `pull_ref` returns
`(["+refs/pull/N/merge"], ["FETCH_HEAD"])`. -/
theorem c9_pull_ref_single_pull (s : String) (N : Int)
    (hc : pyContains s ',' = false) (hn : pyToInt s = some N) :
    pull_ref (.str s) = some (["+refs/pull/" ++ intToStr N ++ "/merge"], ["FETCH_HEAD"])
    ∧ ∀ n : Int, pull_ref (.int n) =
        some (["+refs/pull/" ++ intToStr n ++ "/merge"], ["FETCH_HEAD"]) := by
  refine ⟨?_, fun n => rfl⟩
  simp [pull_ref, hc, hn]

/-- Witness for `c9_pull_ref_single_pull` at the string `"123"`. -/
theorem c9_pull_ref_single_pull_witness :
    pyContains "123" ',' = false ∧ pyToInt "123" = some 123 ∧
    pull_ref (.str "123") = some (["+refs/pull/" ++ intToStr 123 ++ "/merge"], ["FETCH_HEAD"]) :=
  ⟨by decide, by decide, (c9_pull_ref_single_pull "123" 123 (by decide) (by decide)).1⟩

/-- C7: a command killed on timeout reports exit status 124 when the
natural exit code is zero or absent; a non-zero natural exit code is
reported unchanged. -/
theorem c7_timeout_sentinel (c : Int) (hc : c ≠ 0) :
    timeout_code true none = some 124
    ∧ timeout_code true (some 0) = some 124
    ∧ timeout_code true (some c) = some c := by
  refine ⟨rfl, rfl, ?_⟩
  simp [timeout_code, hc]

/-- Witness for `c7_timeout_sentinel` at exit code 3. -/
theorem c7_timeout_sentinel_witness :
    (3 : Int) ≠ 0 ∧ timeout_code true (some 3) = some 3 :=
  ⟨by decide, (c7_timeout_sentinel 3 (by decide)).2.2⟩

/-- C2 counterexample: for `pull = "master:aaa,111:bbb,222"` the fetch refs
returned by `pull_ref` are
`["master", "+refs/pull/111/head:refs/pr/111", "+refs/pull/222/head:refs/pr/222"]`
(the pinned base sha stays in the checkout list and the pinned PR 111 also
gets a fetch spec), not the two-element plan the claim states. -/
theorem c2_pull_ref_example_refs_differ :
    (pull_ref (.str "master:aaa,111:bbb,222")).map Prod.fst =
      some ["master", "+refs/pull/111/head:refs/pr/111", "+refs/pull/222/head:refs/pr/222"]
    ∧ (pull_ref (.str "master:aaa,111:bbb,222")).map Prod.fst ≠
      some ["master:aaa", "+refs/pull/222/head:refs/pr/222"] := by
  constructor <;> decide

/-- C2 amended: for `pull = "master:aaa,111:bbb,222"`, `pull_ref` returns
fetch refs `["master", "+refs/pull/111/head:refs/pr/111",
"+refs/pull/222/head:refs/pr/222"]` and checkout targets
`["aaa", "bbb", "refs/pr/222"]`, and `checkout` applies one merge per
trailing entry, in input order. -/
theorem c2_pull_ref_example_plan :
    pull_ref (.str "master:aaa,111:bbb,222") =
      some (["master", "+refs/pull/111/head:refs/pr/111", "+refs/pull/222/head:refs/pr/222"],
            ["aaa", "bbb", "refs/pr/222"])
    ∧ merge_seq
        ["master", "+refs/pull/111/head:refs/pr/111", "+refs/pull/222/head:refs/pr/222"]
        ["aaa", "bbb", "refs/pr/222"] =
      [.mergeEv "+refs/pull/111/head:refs/pr/111" "bbb",
       .mergeEv "+refs/pull/222/head:refs/pr/222" "refs/pr/222"] := by
  constructor <;> decide

/-- C8 counterexample: with `raiseOnFailure = false` (`check=False`) the
caller does **not** receive the exit status: `_call` returns only the
captured output, so runs with exit statuses 7 and 0 are indistinguishable
from the return value. -/
theorem c8_unchecked_result_has_no_status :
    call_result false 7 ["git", "fetch"] true ["hello"] =
      call_result false 0 ["git", "fetch"] true ["hello"]
    ∧ call_result false 7 ["git", "fetch"] true ["hello"] = .ok (some "hello\n") := by
  exact ⟨rfl, rfl⟩

/-- C8 amended: if the final status is non-zero and `raiseOnFailure` is
true, the call fails with an error carrying the exit status, argument
vector, and captured output (if any); a caller that passes
`raiseOnFailure=false` receives the captured output (if any) directly
instead of an exception — the exit status is not returned. -/
theorem c8_failure_policy (code : Int) (cmd : List String)
    (outputFlag : Bool) (out : List String) (h : code ≠ 0) :
    call_result true code cmd outputFlag out =
      .error ⟨code, cmd, if outputFlag then some (pyJoinNl (out ++ [""])) else none⟩
    ∧ call_result false code cmd outputFlag out =
      .ok (if outputFlag then some (pyJoinNl (out ++ [""])) else none) := by
  refine ⟨?_, ?_⟩
  · simp [call_result, h]
  · simp [call_result]

/-- Witness for `c8_failure_policy` at exit status 2 of `git fetch`. -/
theorem c8_failure_policy_witness :
    (2 : Int) ≠ 0
    ∧ call_result true 2 ["git", "fetch"] true ["boom"] =
        .error ⟨2, ["git", "fetch"], some "boom\n"⟩ := by
  refine ⟨by decide, ?_⟩
  have h := (c8_failure_policy 2 ["git", "fetch"] true ["boom"] (by decide)).1
  simpa using h

/-- C1 counterexample: in the bare CI end-to-end run the single ledger
append happens **before** `finished.json` is uploaded, so the claimed
order started, finished, append, latest does not hold. -/
theorem c1_publish_order_counterexample :
    (bare_ci_events "gs://b" "j" "1").filter is_publish =
      [.uploadJsonEv "gs://b/j/1/started.json",
       .appendResultEv "gs://b/j/jobResultsCache.json",
       .uploadJsonEv "gs://b/j/1/finished.json",
       .uploadTextEv "gs://b/j/latest-build.txt"]
    ∧ (bare_ci_events "gs://b" "j" "1").filter is_publish ≠
      [.uploadJsonEv "gs://b/j/1/started.json",
       .uploadJsonEv "gs://b/j/1/finished.json",
       .appendResultEv "gs://b/j/jobResultsCache.json",
       .uploadTextEv "gs://b/j/latest-build.txt"] := by
  constructor <;> decide

/-- C1 amended: the finished record is uploaded after the job runs but
**after** the Result Ledger appends (job-global and, when present,
PR-scoped), and the latest-build pointer is written after it; for a bare
CI run the order is exactly `started.json`, then one ledger append, then
`finished.json`, then `latest-build.txt`. -/
theorem c1_publish_order (base job build : String) :
    bare_ci_events base job build =
      [.uploadJsonEv (ci_paths base job build).started,
       .runJobEv,
       .appendResultEv (ci_paths base job build).result_cache,
       .uploadJsonEv (ci_paths base job build).finished,
       .uploadTextEv (ci_paths base job build).latest,
       .copyFileEv (ci_paths base job build).build_log]
    ∧ ∀ (paths : Paths) (hasArt : Bool), ∃ pre post,
        finish_events paths hasArt = pre ++ [.uploadJsonEv paths.finished] ++ post
        ∧ (∀ p, PubEv.appendResultEv p ∈ finish_events paths hasArt →
            PubEv.appendResultEv p ∈ pre)
        ∧ (∀ p, PubEv.uploadTextEv p ∈ finish_events paths hasArt →
            PubEv.uploadTextEv p ∈ post) := by
  constructor
  · have hl : pjoin (pjoin base job) "latest-build.txt" ≠ "" :=
      pjoin_ne_empty _ _ (by decide)
    simp [bare_ci_events, bootstrap_events, start_events, finish_events,
      latest_targets, ci_paths, hl]
  · intro paths hasArt
    refine ⟨(if hasArt then [.uploadArtifactsEv paths.artifacts] else [])
        ++ [.appendResultEv paths.result_cache]
        ++ (match paths.pr_result_cache with
            | some p => [.appendResultEv p]
            | none => []),
      (latest_targets paths).map .uploadTextEv, ?_, ?_, ?_⟩
    · simp [finish_events]
    · intro p hp
      cases hasArt <;> cases hpc : paths.pr_result_cache <;>
        simp [finish_events, hpc, List.mem_map] at hp ⊢ <;> tauto
    · intro p hp
      cases hasArt <;> cases hpc : paths.pr_result_cache <;>
        simp [finish_events, hpc, List.mem_map] at hp ⊢ <;> tauto

/-- Witness for `c1_publish_order`: at concrete CI paths, the job-global
append is in the prefix before the `finished.json` upload. -/
theorem c1_publish_order_witness :
    ∃ pre post,
      finish_events (ci_paths "gs://b" "j" "1") false =
        pre ++ [.uploadJsonEv (ci_paths "gs://b" "j" "1").finished] ++ post
      ∧ PubEv.appendResultEv (ci_paths "gs://b" "j" "1").result_cache ∈ pre := by
  obtain ⟨pre, post, heq, hap, _⟩ :=
    (c1_publish_order "gs://b" "j" "1").2 (ci_paths "gs://b" "j" "1") false
  exact ⟨pre, post, heq, hap _ (by decide)⟩

/-- C4: when the main repo's pull field yields exactly one pull number,
`pr_paths` nests paths under the per-PR directory `<pfx>/<number>`;
when it yields more than one, under the shared `<pfx>/batch` directory,
including the single shared `pr_result_cache` path. -/
theorem c4_pr_paths_batch (base job build k branch pull n : String)
    (rest : List (String × String × String)) :
    (pull_numbers (.str pull) = [n] →
      pr_paths base ⟨(k, (branch, pull)) :: rest⟩ job build =
        .ok (pr_paths_with base (pjoin (pr_pfx k) n) job build))
    ∧ ((pull_numbers (.str pull)).length > 1 →
      pr_paths base ⟨(k, (branch, pull)) :: rest⟩ job build =
        .ok (pr_paths_with base (pjoin (pr_pfx k) "batch") job build))
    ∧ (pr_paths_with base (pjoin (pr_pfx k) "batch") job build).pr_result_cache =
        some (pjoin (pjoin (pjoin base "pull")
          (pjoin (pjoin (pr_pfx k) "batch") job)) "jobResultsCache.json") := by
  refine ⟨?_, ?_, rfl⟩
  · intro h
    simp [pr_paths, Repos.main, Repos.get, alookup, h]
  · intro h
    simp [pr_paths, Repos.main, Repos.get, alookup, h]

/-- Witness for `c4_pr_paths_batch`: the spec's examples
`k8s.io/kubernetes=master,12:abc` (batch of one, non-batch paths) and
`master,12:abc,34:def` (two pull numbers, batch paths). -/
theorem c4_pr_paths_batch_witness :
    pull_numbers (.str "master,12:abc") = ["12"]
    ∧ pr_paths "gs://b" ⟨[("k8s.io/kubernetes", ("", "master,12:abc"))]⟩ "j" "5" =
        .ok (pr_paths_with "gs://b"
          (pjoin (pr_pfx "k8s.io/kubernetes") "12") "j" "5")
    ∧ (pull_numbers (.str "master,12:abc,34:def")).length > 1
    ∧ pr_paths "gs://b" ⟨[("k8s.io/kubernetes", ("", "master,12:abc,34:def"))]⟩ "j" "5" =
        .ok (pr_paths_with "gs://b"
          (pjoin (pr_pfx "k8s.io/kubernetes") "batch") "j" "5") :=
  ⟨by decide,
   (c4_pr_paths_batch "gs://b" "j" "5" "k8s.io/kubernetes" "" "master,12:abc" "12" []).1
     (by decide),
   by decide,
   (c4_pr_paths_batch "gs://b" "j" "5" "k8s.io/kubernetes" "" "master,12:abc,34:def" "12" []).2.1
     (by decide)⟩

/-- C10: `pr_paths` on an empty repo set raises `ValueError` instead of
producing a `Paths` instance; on a non-empty repo set its result is
derived from the main (first-inserted) entry only — any two repo sets
sharing the main entry produce identical results. -/
theorem c10_pr_paths_empty_and_main_only (base job build : String)
    (e : String × String × String)
    (rest1 rest2 : List (String × String × String)) :
    pr_paths base ⟨[]⟩ job build = .error "repos is empty"
    ∧ pr_paths base ⟨e :: rest1⟩ job build = pr_paths base ⟨e :: rest2⟩ job build := by
  refine ⟨rfl, ?_⟩
  obtain ⟨k, v⟩ := e
  simp [pr_paths, Repos.main, Repos.get, alookup]

/-- The truncated history never exceeds 300 entries. -/
lemma ledger_write_cache_length_le (cache : List ResultRec) (rec : ResultRec) :
    (ledger_write_cache cache rec).length ≤ 300 := by
  simp [ledger_write_cache, pyLastN]
  omega

/-- Membership in the sleep prefix of a ledger iteration. -/
lemma mem_pre_iff (x : LedgerEv) (P : Prop) [Decidable P] (d : ℚ) :
    (x ∈ if P then [LedgerEv.sleepEv d] else []) ↔ P ∧ x = LedgerEv.sleepEv d := by
  split <;> simp_all

set_option maxRecDepth 8000 in
/-- Every history written back by the ledger loop is at most 300 long. -/
lemma append_result_write_length (rand : Nat → ℚ) (rec : ResultRec) :
    ∀ (steps : List StoreStep) (e : Nat) (c : List ResultRec) (g : Nat),
      LedgerEv.writeEv c g ∈ append_result_loop rand rec steps e → c.length ≤ 300 := by
  intro steps
  induction steps with
  | nil =>
    intro e c g h
    simp [append_result_loop] at h
  | cons step rest ih =>
    intro e c g h
    obtain ⟨stat, cat, wok⟩ := step
    cases stat <;> cases cat <;> cases wok <;>
      simp [append_result_loop, mem_pre_iff] at h <;>
      first
      | (rcases h with ⟨hc, hg⟩ | h
         · subst hc; exact ledger_write_cache_length_le _ _
         · exact ih _ _ _ h)
      | (rcases h with ⟨hc, hg⟩
         · subst hc; exact ledger_write_cache_length_le _ _)
      | exact ih _ _ _ h

/-- C5: every history the ledger loop writes back has at most 300 entries,
the new record going at the end; appending to a 300-entry history drops
exactly the oldest entry. -/
theorem c5_history_bounded (rand : Nat → ℚ) (rec : ResultRec) :
    (∀ (steps : List StoreStep) (e : Nat) (c : List ResultRec) (g : Nat),
        LedgerEv.writeEv c g ∈ append_result_loop rand rec steps e →
          c.length ≤ 300)
    ∧ (∀ (cache : List ResultRec), ledger_write_cache cache rec ≠ [] ∧
        (ledger_write_cache cache rec).getLast? = some rec)
    ∧ (∀ (l : List ResultRec), l.length = 300 →
        ledger_write_cache l rec = l.drop 1 ++ [rec]) := by
  refine ⟨append_result_write_length rand rec, ?_, ?_⟩
  · intro cache
    constructor
    · simp only [ledger_write_cache, pyLastN]
      intro h
      have := congrArg List.length h
      simp at this
      omega
    · simp only [ledger_write_cache, pyLastN]
      have hlen : (cache ++ [rec]).length = cache.length + 1 := by simp
      rw [List.getLast?_drop, if_neg (by omega), List.getLast?_concat]
  · intro l hl
    cases l with
    | nil => simp at hl
    | cons x xs =>
      simp only [List.length_cons] at hl
      simp [ledger_write_cache, pyLastN, List.length_append, hl]

set_option maxRecDepth 8000 in
/-- Witness for `c5_history_bounded`: a concrete write event in a concrete
loop run, and a concrete 300-entry history. -/
theorem c5_history_bounded_witness :
    LedgerEv.writeEv [⟨"v", "7", true⟩] 0 ∈
      append_result_loop (fun _ => 0) ⟨"v", "7", true⟩ [⟨.procErr, .ok [], true⟩] 0
    ∧ ([(⟨"v", "7", true⟩ : ResultRec)]).length ≤ 300
    ∧ (List.replicate 300 (⟨"x", "1", false⟩ : ResultRec)).length = 300
    ∧ ledger_write_cache (List.replicate 300 ⟨"x", "1", false⟩) ⟨"v", "7", true⟩ =
        (List.replicate 300 (⟨"x", "1", false⟩ : ResultRec)).drop 1 ++ [⟨"v", "7", true⟩] := by
  have hmem : LedgerEv.writeEv [⟨"v", "7", true⟩] 0 ∈
      append_result_loop (fun _ => 0) ⟨"v", "7", true⟩ [⟨.procErr, .ok [], true⟩] 0 := by
    decide
  refine ⟨hmem,
    (c5_history_bounded (fun _ => 0) ⟨"v", "7", true⟩).1 _ 0 _ 0 hmem,
    by rw [List.length_replicate],
    (c5_history_bounded (fun _ => 0) ⟨"v", "7", true⟩).2.2 _ (by rw [List.length_replicate])⟩

/-- C3 counterexample: the retry sleep is `random() + min(errorCount, 3)²`
seconds, not `min(errorCount, 3)` seconds, and neither a probe error nor a
decode error increments the error counter or forces a retry.  With
`random() = 0` and two consecutive read failures, the sleep before the
third cycle lasts `min(2,3)² = 4` seconds and no 2-second sleep occurs
anywhere in the trace; a run whose only cycle hits a probe error still
writes and returns within that same cycle with no sleep at all; and a run
whose only cycle finds a generation but fails to decode the document
(`ValueError`, `bootstrap.py` treating it as an empty history) likewise
writes the reset one-record history and returns within that same cycle,
with no sleep and no retry. -/
theorem c3_retry_sleep_counterexample :
    append_result (fun _ => 0) ⟨"v", "7", true⟩
        [⟨.found 4, .procErr, true⟩, ⟨.found 4, .procErr, true⟩, ⟨.found 5, .ok [], true⟩] =
      [.statEv, .catEv 4, .sleepEv 1, .statEv, .catEv 4, .sleepEv 4,
       .statEv, .catEv 5, .writeEv [⟨"v", "7", true⟩] 5, .returnEv]
    ∧ LedgerEv.sleepEv 2 ∉ append_result (fun _ => 0) ⟨"v", "7", true⟩
        [⟨.found 4, .procErr, true⟩, ⟨.found 4, .procErr, true⟩, ⟨.found 5, .ok [], true⟩]
    ∧ append_result (fun _ => 0) ⟨"v", "7", true⟩ [⟨.procErr, .notList, true⟩] =
      [.statEv, .writeEv [⟨"v", "7", true⟩] 0, .returnEv]
    ∧ append_result (fun _ => 0) ⟨"v", "7", true⟩ [⟨.found 9, .decodeErr, true⟩] =
      [.statEv, .catEv 9, .writeEv [⟨"v", "7", true⟩] 9, .returnEv] := by
  have htrace : append_result (fun _ => 0) ⟨"v", "7", true⟩
      [⟨.found 4, .procErr, true⟩, ⟨.found 4, .procErr, true⟩, ⟨.found 5, .ok [], true⟩] =
      [.statEv, .catEv 4, .sleepEv 1, .statEv, .catEv 4, .sleepEv 4,
       .statEv, .catEv 5, .writeEv [⟨"v", "7", true⟩] 5, .returnEv] := by
    simp [append_result, append_result_loop, ledger_write_cache, pyLastN,
      random_sleep_duration]
    norm_num
  refine ⟨htrace, ?_, rfl, rfl⟩
  rw [htrace]
  intro h
  simp at h

/-- C3 amended: in `append_result`'s retry loop the error counter is
incremented on a failed read of an existing generation and on a
conditional-write rejection (exactly once per non-returning cycle); a
probe error yields generation 0 and proceeds to the write within the same
cycle without incrementing; a decode error (non-list document or
`ValueError` at a found generation) resets the history to empty and
likewise proceeds to the write within the same cycle, incrementing only
if that write is rejected; a retry with a positive error count is
preceded by a sleep of `random() + min(errorCount, 3)²` seconds; and when
the 5-minute wall-clock budget is exhausted the loop returns without
raising. -/
theorem c3_retry_policy (rand : Nat → ℚ) (rec : ResultRec) :
    (∀ (steps : List StoreStep) (e : Nat) (q : ℚ),
        LedgerEv.sleepEv q ∈ append_result_loop rand rec steps e →
          ∃ k, 1 ≤ k ∧ q = random_sleep_duration (rand k) (min k 3))
    ∧ (∀ e, append_result_loop rand rec [] e = [.budgetExhaustedEv])
    ∧ (∀ (rest : List StoreStep) (e : Nat) (cat : CatRes),
        append_result_loop rand rec (⟨.procErr, cat, true⟩ :: rest) e =
          (if e ≠ 0 then [.sleepEv (random_sleep_duration (rand e) (min e 3))] else [])
            ++ [.statEv, .writeEv (ledger_write_cache [] rec) 0, .returnEv])
    ∧ (∀ (rest : List StoreStep) (e g : Nat) (l : List ResultRec),
        append_result_loop rand rec (⟨.found g, .ok l, false⟩ :: rest) e =
          (if e ≠ 0 then [.sleepEv (random_sleep_duration (rand e) (min e 3))] else [])
            ++ [.statEv, .catEv g, .writeEv (ledger_write_cache l rec) g]
            ++ append_result_loop rand rec rest (e + 1))
    ∧ (∀ (rest : List StoreStep) (e g : Nat) (w : Bool),
        append_result_loop rand rec (⟨.found g, .procErr, w⟩ :: rest) e =
          (if e ≠ 0 then [.sleepEv (random_sleep_duration (rand e) (min e 3))] else [])
            ++ [.statEv, .catEv g]
            ++ append_result_loop rand rec rest (e + 1))
    ∧ (∀ (rest : List StoreStep) (e g : Nat) (cat : CatRes),
        cat = .notList ∨ cat = .decodeErr →
        append_result_loop rand rec (⟨.found g, cat, true⟩ :: rest) e =
          (if e ≠ 0 then [.sleepEv (random_sleep_duration (rand e) (min e 3))] else [])
            ++ [.statEv, .catEv g, .writeEv (ledger_write_cache [] rec) g, .returnEv])
    ∧ (∀ (rest : List StoreStep) (e g : Nat) (cat : CatRes),
        cat = .notList ∨ cat = .decodeErr →
        append_result_loop rand rec (⟨.found g, cat, false⟩ :: rest) e =
          (if e ≠ 0 then [.sleepEv (random_sleep_duration (rand e) (min e 3))] else [])
            ++ [.statEv, .catEv g, .writeEv (ledger_write_cache [] rec) g]
            ++ append_result_loop rand rec rest (e + 1)) := by
  refine ⟨?_, fun e => rfl, fun rest e cat => by cases cat <;> rfl,
    fun rest e g l => rfl, fun rest e g w => rfl,
    fun rest e g cat hcat => by rcases hcat with rfl | rfl <;> rfl,
    fun rest e g cat hcat => by rcases hcat with rfl | rfl <;> rfl⟩
  intro steps
  induction steps with
  | nil =>
    intro e q h
    simp [append_result_loop] at h
  | cons step rest ih =>
    intro e q h
    obtain ⟨stat, cat, wok⟩ := step
    cases stat <;> cases cat <;> cases wok <;>
      simp [append_result_loop, mem_pre_iff] at h <;>
      first
      | (rcases h with ⟨he, hq⟩ | h
         · exact ⟨e, by omega, hq⟩
         · exact ih _ _ h)
      | (rcases h with ⟨he, hq⟩
         · exact ⟨e, by omega, hq⟩)

/-- Witness for `c3_retry_policy`: the 4-second sleep of the concrete
counterexample run indeed has the `random() + min(k, 3)²` form, a
concrete exhausted-budget run returns a trace, and a concrete
decode-error cycle writes the reset history and returns at once. -/
theorem c3_retry_policy_witness :
    (LedgerEv.sleepEv 4 ∈ append_result_loop (fun _ => 0) ⟨"v", "7", true⟩
        [⟨.found 4, .procErr, true⟩, ⟨.found 4, .procErr, true⟩, ⟨.found 5, .ok [], true⟩] 0)
    ∧ (∃ k, 1 ≤ k ∧ (4 : ℚ) = random_sleep_duration ((fun _ => 0) k) (min k 3))
    ∧ append_result_loop (fun _ => (0 : ℚ)) ⟨"v", "7", true⟩ [] 5 = [.budgetExhaustedEv]
    ∧ (CatRes.decodeErr = CatRes.notList ∨ CatRes.decodeErr = CatRes.decodeErr)
    ∧ append_result_loop (fun _ => (0 : ℚ)) ⟨"v", "7", true⟩ [⟨.found 9, .decodeErr, true⟩] 0 =
        (if (0 : Nat) ≠ 0 then
          [.sleepEv (random_sleep_duration ((fun _ => (0 : ℚ)) 0) (min 0 3))] else [])
          ++ [.statEv, .catEv 9, .writeEv (ledger_write_cache [] ⟨"v", "7", true⟩) 9,
              .returnEv] := by
  have hmem : LedgerEv.sleepEv 4 ∈ append_result_loop (fun _ => 0) ⟨"v", "7", true⟩
      [⟨.found 4, .procErr, true⟩, ⟨.found 4, .procErr, true⟩, ⟨.found 5, .ok [], true⟩] 0 := by
    have htrace := c3_retry_sleep_counterexample.1
    rw [append_result] at htrace
    rw [htrace]
    simp
  exact ⟨hmem,
    (c3_retry_policy (fun _ => 0) ⟨"v", "7", true⟩).1 _ 0 4 hmem,
    (c3_retry_policy (fun _ => 0) ⟨"v", "7", true⟩).2.1 5,
    Or.inr rfl,
    (c3_retry_policy (fun _ => 0) ⟨"v", "7", true⟩).2.2.2.2.2.1 [] 0 9 .decodeErr
      (Or.inr rfl)⟩

/-- Fetch attempts in a checkout trace. -/
def isFetch : CheckoutEv → Bool
  | .fetchEv => true
  | _ => false

/-- `merge_seq` contains no fetch events. -/
lemma merge_seq_countP_isFetch (refs checkouts : List String) :
    (merge_seq refs checkouts).countP isFetch = 0 := by
  rw [List.countP_eq_zero]
  intro a ha
  simp only [merge_seq, List.mem_map] at ha
  obtain ⟨rh, _, hrh⟩ := ha
  subst hrh
  simp [isFetch]

/-- C6: the checkout fetch is attempted at most 3 times; a failed fetch is
retried only on exit status 128 (any other status re-raises immediately,
and the third failure re-raises regardless); each inter-attempt sleep
lasts `random() + attempt²` seconds; and the subsequent checkout and
merges run exactly once, after all fetching, and are never retried. -/
theorem c6_fetch_retry (outcomes : Nat → FetchOutcome) (rand : Nat → ℚ)
    (refs checkouts : List String) :
    ((checkout_events outcomes rand refs checkouts).1.countP isFetch ≤ 3)
    ∧ (∀ c : Int, outcomes 0 = .err c → c ≠ 128 →
        checkout_events outcomes rand refs checkouts = ([.fetchEv], some c))
    ∧ (∀ c : Int, outcomes 0 = .err 128 → outcomes 1 = .err c → c ≠ 128 →
        checkout_events outcomes rand refs checkouts =
          ([.fetchEv, .sleepEv (random_sleep_duration (rand 0) 0), .fetchEv], some c))
    ∧ (∀ c : Int, outcomes 0 = .err 128 → outcomes 1 = .err 128 → outcomes 2 = .err c →
        checkout_events outcomes rand refs checkouts =
          ([.fetchEv, .sleepEv (random_sleep_duration (rand 0) 0), .fetchEv,
            .sleepEv (random_sleep_duration (rand 1) 1), .fetchEv], some c))
    ∧ (∀ q, CheckoutEv.sleepEv q ∈ (checkout_events outcomes rand refs checkouts).1 →
        ∃ a, a < 2 ∧ q = random_sleep_duration (rand a) a ∧ outcomes a = .err 128)
    ∧ ((checkout_events outcomes rand refs checkouts).2 = none →
        ∃ fetchPart, (∀ x ∈ fetchPart, x = CheckoutEv.fetchEv ∨ ∃ q, x = .sleepEv q)
          ∧ (checkout_events outcomes rand refs checkouts).1 =
              fetchPart ++ [.checkoutEv (checkouts.headD "")] ++ merge_seq refs checkouts) := by
  have hshape :
      (∃ c0, outcomes 0 = .err c0 ∧ c0 ≠ 128 ∧
        checkout_events outcomes rand refs checkouts = ([.fetchEv], some c0))
      ∨ (∃ c1, outcomes 0 = .err 128 ∧ outcomes 1 = .err c1 ∧ c1 ≠ 128 ∧
        checkout_events outcomes rand refs checkouts =
          ([.fetchEv, .sleepEv (random_sleep_duration (rand 0) 0), .fetchEv], some c1))
      ∨ (∃ c2, outcomes 0 = .err 128 ∧ outcomes 1 = .err 128 ∧ outcomes 2 = .err c2 ∧
        checkout_events outcomes rand refs checkouts =
          ([.fetchEv, .sleepEv (random_sleep_duration (rand 0) 0), .fetchEv,
            .sleepEv (random_sleep_duration (rand 1) 1), .fetchEv], some c2))
      ∨ (∃ a pre, a < 3 ∧ outcomes a = .ok ∧ (∀ i, i < a → outcomes i = .err 128)
          ∧ (∀ x ∈ pre, x = CheckoutEv.fetchEv ∨ ∃ q, (x = CheckoutEv.sleepEv q ∧
              ∃ b, b < 2 ∧ q = random_sleep_duration (rand b) b ∧ outcomes b = .err 128))
          ∧ pre.countP isFetch ≤ 3
          ∧ checkout_events outcomes rand refs checkouts =
            (pre ++ [.checkoutEv (checkouts.headD "")] ++ merge_seq refs checkouts, none)) := by
    rcases h0 : outcomes 0 with _ | c0
    · refine Or.inr (Or.inr (Or.inr ⟨0, [.fetchEv], by omega, h0,
        fun i hi => absurd hi (by omega), ?_, by simp [isFetch], ?_⟩))
      · intro x hx
        simp at hx
        exact Or.inl hx
      · simp [checkout_events, fetch_loop, h0]
    · by_cases hc0 : c0 = 128
      · subst hc0
        rcases h1 : outcomes 1 with _ | c1
        · refine Or.inr (Or.inr (Or.inr
            ⟨1, [.fetchEv, .sleepEv (random_sleep_duration (rand 0) 0), .fetchEv],
             by omega, h1, ?_, ?_, by simp [isFetch], ?_⟩))
          · intro i hi
            have : i = 0 := by omega
            subst this
            exact h0
          · intro x hx
            simp at hx
            rcases hx with hx | hx | hx
            · exact Or.inl hx
            · exact Or.inr ⟨_, hx, 0, by omega, rfl, h0⟩
            · exact Or.inl hx
          · simp [checkout_events, fetch_loop, h0, h1]
        · by_cases hc1 : c1 = 128
          · subst hc1
            rcases h2 : outcomes 2 with _ | c2
            · refine Or.inr (Or.inr (Or.inr
                ⟨2, [.fetchEv, .sleepEv (random_sleep_duration (rand 0) 0), .fetchEv,
                  .sleepEv (random_sleep_duration (rand 1) 1), .fetchEv],
                 by omega, h2, ?_, ?_, by simp [isFetch], ?_⟩))
              · intro i hi
                rcases i with _ | _ | i
                · exact h0
                · exact h1
                · omega
              · intro x hx
                simp at hx
                rcases hx with hx | hx | hx | hx | hx
                · exact Or.inl hx
                · exact Or.inr ⟨_, hx, 0, by omega, rfl, h0⟩
                · exact Or.inl hx
                · exact Or.inr ⟨_, hx, 1, by omega, rfl, h1⟩
                · exact Or.inl hx
              · simp [checkout_events, fetch_loop, h0, h1, h2]
            · refine Or.inr (Or.inr (Or.inl ⟨c2, rfl, rfl, rfl, ?_⟩))
              simp [checkout_events, fetch_loop, h0, h1, h2]
          · refine Or.inr (Or.inl ⟨c1, rfl, rfl, hc1, ?_⟩)
            simp [checkout_events, fetch_loop, h0, h1, hc1]
      · refine Or.inl ⟨c0, rfl, hc0, ?_⟩
        simp [checkout_events, fetch_loop, h0, hc0]
  refine ⟨?_, ?_, ?_, ?_, ?_, ?_⟩
  · rcases hshape with ⟨c0, _, _, h⟩ | ⟨c1, _, _, _, h⟩ | ⟨c2, _, _, _, h⟩ |
      ⟨a, pre, _, _, _, _, hcount, h⟩ <;> rw [h] <;>
      simp [List.countP_append, merge_seq_countP_isFetch, List.countP_cons, isFetch]
    omega
  · intro c h0 hc
    rcases hshape with ⟨c0, h0', _, h⟩ | ⟨c1, h0', _, _, h⟩ | ⟨c2, h0', _, _, h⟩ |
      ⟨a, pre, ha, ho, hall, _, _, h⟩
    · rw [h0] at h0'
      cases h0'
      exact h
    · rw [h0] at h0'
      cases h0'
      exact absurd rfl hc
    · rw [h0] at h0'
      cases h0'
      exact absurd rfl hc
    · exfalso
      by_cases ha0 : a = 0
      · subst ha0
        rw [h0] at ho
        cases ho
      · have := hall 0 (by omega)
        rw [h0] at this
        cases this
        exact hc rfl
  · intro c h0 h1 hc
    rcases hshape with ⟨c0, h0', hc0, h⟩ | ⟨c1, _, h1', _, h⟩ | ⟨c2, _, h1', _, h⟩ |
      ⟨a, pre, ha, ho, hall, _, _, h⟩
    · rw [h0] at h0'
      cases h0'
      exact absurd rfl hc0
    · rw [h1] at h1'
      cases h1'
      exact h
    · rw [h1] at h1'
      cases h1'
      exact absurd rfl hc
    · exfalso
      rcases a with _ | _ | a
      · rw [h0] at ho
        cases ho
      · rw [h1] at ho
        cases ho
      · have := hall 1 (by omega)
        rw [h1] at this
        cases this
        exact hc rfl
  · intro c h0 h1 h2
    rcases hshape with ⟨c0, h0', hc0, h⟩ | ⟨c1, _, h1', hc1, h⟩ | ⟨c2, _, _, h2', h⟩ |
      ⟨a, pre, ha, ho, hall, _, _, h⟩
    · rw [h0] at h0'
      cases h0'
      exact absurd rfl hc0
    · rw [h1] at h1'
      cases h1'
      exact absurd rfl hc1
    · rw [h2] at h2'
      cases h2'
      exact h
    · exfalso
      rcases a with _ | _ | a
      · rw [h0] at ho
        cases ho
      · rw [h1] at ho
        cases ho
      · have : a = 0 := by omega
        subst this
        rw [h2] at ho
        cases ho
  · intro q hq
    rcases hshape with ⟨c0, _, _, h⟩ | ⟨c1, h0', _, _, h⟩ | ⟨c2, h0', h1', _, h⟩ |
      ⟨a, pre, _, _, _, hpre, _, h⟩
    · rw [h] at hq
      simp at hq
    · rw [h] at hq
      simp at hq
      exact ⟨0, by omega, hq, h0'⟩
    · rw [h] at hq
      simp at hq
      rcases hq with hq | hq
      · exact ⟨0, by omega, hq, h0'⟩
      · exact ⟨1, by omega, hq, h1'⟩
    · rw [h] at hq
      simp only [List.mem_append, List.mem_cons, List.not_mem_nil, or_false] at hq
      rcases hq with (hq | hq) | hq
      · rcases hpre _ hq with hx | ⟨q', hx, b, hb, hd, ho'⟩
        · simp at hx
        · injection hx with hqq
          subst hqq
          exact ⟨b, hb, hd, ho'⟩
      · simp at hq
      · simp only [merge_seq, List.mem_map] at hq
        obtain ⟨rh, _, hrh⟩ := hq
        simp at hrh
  · intro hnone
    rcases hshape with ⟨c0, _, _, h⟩ | ⟨c1, _, _, _, h⟩ | ⟨c2, _, _, _, h⟩ |
      ⟨a, pre, _, _, _, hpre, _, h⟩
    · rw [h] at hnone
      simp at hnone
    · rw [h] at hnone
      simp at hnone
    · rw [h] at hnone
      simp at hnone
    · refine ⟨pre, ?_, ?_⟩
      · intro x hx
        rcases hpre x hx with hx' | ⟨q, hx', _⟩
        · exact Or.inl hx'
        · exact Or.inr ⟨q, hx'⟩
      · rw [h]

/-- Witness for `c6_fetch_retry`: a first fetch failing with the
recoverable status 128 is retried after a `random() + 0²` sleep, and a
second failure with status 7 re-raises immediately. -/
theorem c6_fetch_retry_witness :
    (fun i => if i = 0 then FetchOutcome.err 128 else FetchOutcome.err 7) 0 =
      FetchOutcome.err 128
    ∧ (fun i => if i = 0 then FetchOutcome.err 128 else FetchOutcome.err 7) 1 =
      FetchOutcome.err 7
    ∧ (7 : Int) ≠ 128
    ∧ checkout_events (fun i => if i = 0 then .err 128 else .err 7) (fun _ => 1 / 2)
        ["m"] ["FETCH_HEAD"] =
      ([.fetchEv, .sleepEv (random_sleep_duration ((fun _ : Nat => (1 : ℚ) / 2) 0) 0),
        .fetchEv], some 7) :=
  ⟨by decide, by decide, by decide,
   (c6_fetch_retry (fun i => if i = 0 then .err 128 else .err 7) (fun _ => 1 / 2)
      ["m"] ["FETCH_HEAD"]).2.2.1 7 (by decide) (by decide) (by decide)⟩

end Bootstrap
